import Mathlib

/-
Verification of the concurrent external-process execution engine of the
K1NGB0B recon toolkit.  The engine lives in two variants:
  * src/k1ngb0b/utils/runner.py   (RunResult, AsyncRunner, run_sync, get_runner)
  * src/k1ngb0b_recon_II.py       (ProfessionalTimeoutManager)
plus the binary resolver in src/k1ngb0b/utils/tools.py (check_tool).

The Python code is embedded shallowly: OS-level nondeterminism (how the
spawned child behaves, which exceptions the standard library raises) is an
explicit behaviour parameter, and every control-flow path of the Python
functions is translated branch by branch.  Exceptions are modelled with an
explicit error channel (`Except PyExn`): a Python `try` body maps to a
computation that may return `.error`, and each `except` clause maps to a
branch of a handler match, so "never raises across the public boundary"
is the provable statement that the public functions always return `.ok`.
-/

/-- Outcome record of one command execution.
Mirrors the dataclass `RunResult` in src/k1ngb0b/utils/runner.py (lines
15-23): argument vector, integer return code, captured stdout/stderr, a
`timed_out` flag and the elapsed wall-clock duration.  The Python float
duration is modelled as an integer number of time units; no claim depends
on its arithmetic. -/
structure RunResult where
  command : List String
  returncode : Int
  stdout : String
  stderr : String
  timed_out : Bool
  duration : Int
deriving Repr, DecidableEq

/-- Derived predicate `RunResult.success` (runner.py lines 25-28):
`return self.returncode == 0 and not self.timed_out`. -/
def RunResult.success (r : RunResult) : Bool :=
  r.returncode == 0 && !r.timed_out

/-- Derived accessor `RunResult.output` (runner.py lines 30-33):
combined stdout and stderr. -/
def RunResult.output (r : RunResult) : String :=
  r.stdout ++ r.stderr

/-- Python exception values that can cross between the modelled `try`
bodies and their handlers.  All constructors model subclasses of
`Exception` (the engine never interacts with `BaseException`).  -/
inductive PyExn where
  /-- `FileNotFoundError` raised by process creation. -/
  | fileNotFound : PyExn
  /-- `subprocess.TimeoutExpired` raised by `subprocess.run` / `communicate`. -/
  | timeoutExpired : PyExn
  /-- Any other `Exception`; the payload is its `str(e)` rendering. -/
  | otherExn (msg : String) : PyExn
deriving Repr, DecidableEq

/-- Rendering `str(e)` used by the generic `except Exception as e` handlers. -/
def PyExn.msg : PyExn → String
  | .fileNotFound => "FileNotFoundError"
  | .timeoutExpired => "TimeoutExpired"
  | .otherExn m => m

/-- Boolean test that an `Except` value carries a result, i.e. that the
modelled Python call returned normally instead of propagating an
exception. -/
def exceptIsOk {ε α : Type} : Except ε α → Bool
  | .ok _ => true
  | .error _ => false

/-- Behaviour of `asyncio.create_subprocess_exec` for one invocation:
either the spawn succeeds, or it raises `FileNotFoundError`, or it raises
some other exception (permission denied, resource exhaustion, ...). -/
inductive SpawnOutcome where
  | ok : SpawnOutcome
  | fileNotFound : SpawnOutcome
  | raises (msg : String) : SpawnOutcome
deriving Repr, DecidableEq

/-- Behaviour of `await asyncio.wait_for(process.communicate(...), timeout)`
for a successfully spawned child:
  * `completes so se` — the child exits before the deadline and the pipes
    drain to `so`/`se`;
  * `timesOut lostStdout lostStderr` — the deadline elapses first
    (`asyncio.TimeoutError`); the payloads record whatever partial output
    the child had produced, which the Python code never reads;
  * `raises msg` — some other exception is raised while communicating
    (e.g. `UnicodeEncodeError` from `input_data.encode()`). -/
inductive CommOutcome where
  | completes (so se : String) : CommOutcome
  | timesOut (lostStdout lostStderr : String) : CommOutcome
  | raises (msg : String) : CommOutcome
deriving Repr, DecidableEq

/-- Full environment behaviour of one `AsyncRunner.run` invocation.
`exitCode` is `process.returncode` after a normal `communicate` return;
`returncodeAfterKill` is `process.returncode` as observed after
`_kill_process` on the timeout path (for a signal-killed child Python
reports the negated signal number, e.g. -15 for SIGTERM). -/
structure ProcBehavior where
  spawn : SpawnOutcome
  comm : CommOutcome
  exitCode : Option Int
  returncodeAfterKill : Option Int
deriving Repr, DecidableEq

/-- Translation of the expression
`process.returncode if process.returncode is not None else 1`
(runner.py line 129). -/
def returncodeOrOne : Option Int → Int
  | some rc => rc
  | none => 1

/-- Body of the `try` block of `AsyncRunner.run` (runner.py lines 88-116):
spawn the child, append its handle to the `_processes` registry, then
`communicate` under `asyncio.wait_for`.  `asyncio.TimeoutError` is caught
by the inner handler (kill the process, substitute empty stdout and the
literal `b'Timeout exceeded'` stderr); any other exception propagates to
the caller's handlers.  The registry is threaded explicitly: note that on
the propagating-exception path the appended handle is *not* removed.
The process handle is identified by the abstract id `pid`. -/
def AsyncRunner.runBody (procs : List Nat) (pid : Nat) (cmd : List String)
    (b : ProcBehavior) (elapsed : Int) :
    List Nat × Except PyExn RunResult :=
  match b.spawn with
  | .fileNotFound => (procs, .error .fileNotFound)
  | .raises e => (procs, .error (.otherExn e))
  | .ok =>
    let procs1 := procs ++ [pid]
    match b.comm with
    | .completes so se =>
        (procs1.erase pid,
         .ok ⟨cmd, returncodeOrOne b.exitCode, so, se, false, elapsed⟩)
    | .timesOut _ _ =>
        (procs1.erase pid,
         .ok ⟨cmd, returncodeOrOne b.returncodeAfterKill, "",
              "Timeout exceeded", true, elapsed⟩)
    | .raises e => (procs1, .error (.otherExn e))

/-- `AsyncRunner.run` (runner.py lines 68-134): the try body followed by
its two handlers, `except FileNotFoundError` (return code 127) and
`except Exception as e` (return code 1, stderr `str(e)`).  An exception
not caught by either clause would cross the public boundary as `.error`.
The per-invocation deadline itself is real time and is abstracted into
`b.comm`. -/
def AsyncRunner.run (procs : List Nat) (pid : Nat) (cmd : List String)
    (b : ProcBehavior) (elapsed : Int) :
    List Nat × Except PyExn RunResult :=
  match AsyncRunner.runBody procs pid cmd b elapsed with
  | (procs2, .ok r) => (procs2, .ok r)
  | (procs2, .error .fileNotFound) =>
      (procs2, .ok ⟨cmd, 127, "",
        "Command not found: " ++ cmd.headD "", false, elapsed⟩)
  | (procs2, .error e) =>
      (procs2, .ok ⟨cmd, 1, "", e.msg, false, elapsed⟩)

/-- `AsyncRunner.run_tool` (runner.py lines 157-176): resolve the tool
name on the search path (`shutil.which`, modelled by the function
`which`); when absent, return the 127 not-found result directly without
spawning; otherwise run the resolved binary. -/
def AsyncRunner.run_tool (which : String → Option String)
    (tool_name : String) (args : List String)
    (procs : List Nat) (pid : Nat) (b : ProcBehavior) (elapsed : Int) :
    List Nat × Except PyExn RunResult :=
  match which tool_name with
  | none =>
      (procs, .ok ⟨tool_name :: args, 127, "",
        "Tool '" ++ tool_name ++ "' not found in PATH", false, 0⟩)
  | some binary => AsyncRunner.run procs pid (binary :: args) b elapsed

/-- Behaviour of one `subprocess.run` call inside `run_sync`: a normal
`CompletedProcess` (whose stdout/stderr are `None` when `capture` is
false, hence `Option String`), a `subprocess.TimeoutExpired`, a
`FileNotFoundError`, or any other exception. -/
inductive SubprocessRunOutcome where
  | completes (returncode : Int) (so se : Option String) : SubprocessRunOutcome
  | timesOut : SubprocessRunOutcome
  | fileNotFound : SubprocessRunOutcome
  | raises (msg : String) : SubprocessRunOutcome
deriving Repr, DecidableEq

/-- Body of the `try` block of `run_sync` (runner.py lines 212-228):
call `subprocess.run` and build the result from the `CompletedProcess`
(`result.stdout or ''` maps to `Option.getD`); exceptions propagate. -/
def run_syncBody (cmd : List String) (b : SubprocessRunOutcome)
    (elapsed : Int) : Except PyExn RunResult :=
  match b with
  | .completes rc so se =>
      .ok ⟨cmd, rc, so.getD "", se.getD "", false, elapsed⟩
  | .timesOut => .error .timeoutExpired
  | .fileNotFound => .error .fileNotFound
  | .raises e => .error (.otherExn e)

/-- `run_sync` (runner.py lines 204-246): the try body followed by its
three handlers in source order — `except subprocess.TimeoutExpired`
(return code 124, `timed_out` true), `except FileNotFoundError`
(return code 127), `except Exception as e` (return code 1). -/
def run_sync (cmd : List String) (b : SubprocessRunOutcome)
    (elapsed : Int) : Except PyExn RunResult :=
  match run_syncBody cmd b elapsed with
  | .ok r => .ok r
  | .error .timeoutExpired =>
      .ok ⟨cmd, 124, "", "Timeout exceeded", true, elapsed⟩
  | .error .fileNotFound =>
      .ok ⟨cmd, 127, "",
        "Command not found: " ++ cmd.headD "", false, elapsed⟩
  | .error e => .ok ⟨cmd, 1, "", e.msg, false, elapsed⟩

/-- Information about an installed tool.  Mirrors the dataclass
`ToolInfo` in src/k1ngb0b/utils/tools.py (lines 13-20). -/
structure ToolInfo where
  name : String
  binary : Option String
  available : Bool
  version : Option String := none
  install_hint : Option String := none
deriving Repr, DecidableEq

/-- The `INSTALL_HINTS` table of tools.py (lines 24-38). -/
def INSTALL_HINTS : List (String × String) :=
  [("subfinder", "go install github.com/projectdiscovery/subfinder/v2/cmd/subfinder@latest"),
   ("httpx", "go install github.com/projectdiscovery/httpx/cmd/httpx@latest"),
   ("nuclei", "go install github.com/projectdiscovery/nuclei/v3/cmd/nuclei@latest"),
   ("naabu", "go install github.com/projectdiscovery/naabu/v2/cmd/naabu@latest"),
   ("katana", "go install github.com/projectdiscovery/katana/cmd/katana@latest"),
   ("assetfinder", "go install github.com/tomnomnom/assetfinder@latest"),
   ("anew", "go install github.com/tomnomnom/anew@latest"),
   ("waybackurls", "go install github.com/tomnomnom/waybackurls@latest"),
   ("gau", "go install github.com/lc/gau/v2/cmd/gau@latest"),
   ("ffuf", "go install github.com/ffuf/ffuf/v2@latest"),
   ("amass", "go install github.com/owasp-amass/amass/v4/...@latest"),
   ("rustscan", "brew install rustscan  # macOS\ncargo install rustscan  # Linux"),
   ("nmap", "brew install nmap  # macOS\nsudo apt install nmap  # Linux")]

/-- `check_tool` (tools.py lines 53-96).  `shutil.which` is modelled by
the `which` parameter; the not-found branch returns a `ToolInfo` value
(`available=False` with the install hint) without any exception.  The
version-probing loop of the found branch (a sequence of guarded
`subprocess.run` calls whose failures are all swallowed by
`except Exception: pass`) is I/O and is abstracted by `probeVersion`,
which yields the extracted version string, if any. -/
def check_tool (which : String → Option String)
    (probeVersion : String → Option String) (name : String) : ToolInfo :=
  match which name with
  | none =>
      { name := name, binary := none, available := false,
        version := none, install_hint := INSTALL_HINTS.lookup name }
  | some binary =>
      { name := name, binary := some binary, available := true,
        version := probeVersion binary,
        install_hint := INSTALL_HINTS.lookup name }

/-- Constructor-level state of an `AsyncRunner` instance (runner.py lines
39-53): the default timeout and the concurrency capacity fixed at
construction time. -/
structure AsyncRunner where
  timeout : Int
  max_concurrent : Nat
deriving Repr, DecidableEq

/-- `get_runner` (runner.py lines 250-261) together with the module-level
`_default_runner` cell (line 250): the cell is the first component of the
state; the function returns the runner handed to the caller and the new
cell contents.  A fresh runner is constructed only when the cell is
`None`. -/
def get_runner (cell : Option AsyncRunner) (timeout : Int)
    (max_concurrent : Nat) : AsyncRunner × Option AsyncRunner :=
  match cell with
  | none =>
      (⟨timeout, max_concurrent⟩, some ⟨timeout, max_concurrent⟩)
  | some r => (r, some r)

/-- One entry of the `manual_commands` list of
`ProfessionalTimeoutManager` (src/k1ngb0b_recon_II.py lines 135-139 and
151-155): description, the shell-joined command line, and the failure
reason. -/
structure ManualRecord where
  description : String
  command : String
  reason : String
deriving Repr, DecidableEq

/-- Mutable state of a `ProfessionalTimeoutManager`
(k1ngb0b_recon_II.py lines 88-92): the `active_processes` dict (keyed by
description, holding the command), the timeout/skip counters and the
accumulated manual commands.  `start_time` is real time and not
modelled. -/
structure PTMState where
  active_processes : List (String × List String)
  timeout_count : Nat
  skip_count : Nat
  manual_commands : List ManualRecord
deriving Repr, DecidableEq

/-- Fresh state built by `ProfessionalTimeoutManager.__init__`. -/
def PTMState.init : PTMState :=
  { active_processes := [], timeout_count := 0, skip_count := 0,
    manual_commands := [] }

/-- Python dict assignment `d[k] = v` on an association list with unique
keys: replace the entry when the key is present, append otherwise. -/
def dictSet (d : List (String × List String)) (k : String)
    (v : List String) : List (String × List String) :=
  if d.any (fun p => p.1 == k) then
    d.map (fun p => if p.1 == k then (k, v) else p)
  else d ++ [(k, v)]

/-- The `finally` clause of `run_with_timeout` (k1ngb0b_recon_II.py lines
160-162): `if description in self.active_processes: del ...`. -/
def PTMState.finallyDel (st : PTMState) (description : String) : PTMState :=
  { st with active_processes :=
      st.active_processes.filter (fun p => !(p.1 == description)) }

/-- Behaviour of one `subprocess.Popen` + `communicate` round inside
`run_with_timeout`: the spawn itself raises, or the child completes
before the deadline, or `subprocess.TimeoutExpired` fires, or some other
exception is raised after the spawn. -/
inductive PopenBehavior where
  | spawnRaises (msg : String) : PopenBehavior
  | completes (returncode : Int) (so se : String) : PopenBehavior
  | timesOut : PopenBehavior
  | commRaises (msg : String) : PopenBehavior
deriving Repr, DecidableEq

/-- `ProfessionalTimeoutManager.run_with_timeout` (k1ngb0b_recon_II.py
lines 94-162).  The try body spawns the child, stores it in
`active_processes[description]`, and calls `communicate(timeout)`:
  * normal completion returns `(returncode == 0, stdout, stderr)`;
  * on `subprocess.TimeoutExpired` it bumps `timeout_count`, terminates
    the process group, appends a manual record with reason
    `'Timeout after {timeout}s'` and returns `(False, '', reason)`;
  * the outer `except Exception` (covering a raising spawn as well) bumps
    `skip_count`, appends a manual record with reason `str(e)` and
    returns `(False, '', str(e))`.
The `finally` clause always deletes the registry entry.  A command that
completes with a non-zero exit code returns `success=False` but appends
no manual record. -/
def run_with_timeout (st : PTMState) (command : List String)
    (timeout : Int) (description : String) (b : PopenBehavior) :
    PTMState × Except PyExn (Bool × String × String) :=
  match b with
  | .spawnRaises e =>
      let st1 :=
        { st with
          skip_count := st.skip_count + 1
          manual_commands := st.manual_commands ++
            [ManualRecord.mk description (String.intercalate " " command) e] }
      (st1.finallyDel description, .ok (false, "", e))
  | .completes rc so se =>
      let st1 :=
        { st with
          active_processes := dictSet st.active_processes description command }
      (st1.finallyDel description, .ok (rc == 0, so, se))
  | .timesOut =>
      let st1 :=
        { st with
          active_processes := dictSet st.active_processes description command }
      let reason := "Timeout after " ++ toString timeout ++ "s"
      let st2 :=
        { st1 with
          timeout_count := st1.timeout_count + 1
          manual_commands := st1.manual_commands ++
            [ManualRecord.mk description (String.intercalate " " command) reason] }
      (st2.finallyDel description, .ok (false, "", reason))
  | .commRaises e =>
      let st1 :=
        { st with
          active_processes := dictSet st.active_processes description command }
      let st2 :=
        { st1 with
          skip_count := st1.skip_count + 1
          manual_commands := st1.manual_commands ++
            [ManualRecord.mk description (String.intercalate " " command) e] }
      (st2.finallyDel description, .ok (false, "", e))

/-- One invocation of a batch submitted through
`ProfessionalTimeoutManager.run_with_timeout`: its arguments plus the
environment behaviour of its child. -/
structure Job where
  command : List String
  timeout : Int
  description : String
  behavior : PopenBehavior
deriving Repr, DecidableEq

/-- Sequential submission of a batch of jobs through
`run_with_timeout`, threading the manager state, as the orchestration
code of k1ngb0b_recon_II.py does (e.g. lines 462, 581, 654-792). -/
def runBatch (st : PTMState) :
    List Job → PTMState × List (Except PyExn (Bool × String × String))
  | [] => (st, [])
  | j :: rest =>
      let (st1, r) := run_with_timeout st j.command j.timeout j.description j.behavior
      let (st2, rs) := runBatch st1 rest
      (st2, r :: rs)

/-- The manual record that `run_with_timeout` appends for a job, if any:
one record for a timeout (reason `'Timeout after {timeout}s'`) or for an
exception (reason `str(e)`), none for a completed command regardless of
its exit code.  Derived path by path from `run_with_timeout`. -/
def manualRecordOf (j : Job) : Option ManualRecord :=
  match j.behavior with
  | .completes _ _ _ => none
  | .timesOut =>
      some ⟨j.description, String.intercalate " " j.command,
            "Timeout after " ++ toString j.timeout ++ "s"⟩
  | .spawnRaises e =>
      some ⟨j.description, String.intercalate " " j.command, e⟩
  | .commRaises e =>
      some ⟨j.description, String.intercalate " " j.command, e⟩

/-- `ProfessionalTimeoutManager.save_manual_commands`
(k1ngb0b_recon_II.py lines 200-224): returns nothing when
`manual_commands` is empty; otherwise flushes (1) the structured record
list (the JSON dump is exactly `manual_commands`, in order) and (2) the
shell script, line by line: shebang, two header comments, a blank line,
then for every record a description comment, a reason comment, the
command, and a blank line. -/
def save_manual_commands (st : PTMState) :
    Option (List ManualRecord × List String) :=
  if st.manual_commands.isEmpty then none
  else
    some (st.manual_commands,
      ["#!/bin/bash",
       "# Manual commands that timed out or failed",
       "# Review and execute manually as needed",
       ""] ++
      st.manual_commands.flatMap (fun c =>
        ["# " ++ c.description, "# Reason: " ++ c.reason, c.command, ""]))

/-- A POSIX signal as used by the termination paths. -/
inductive Sig where
  | sigterm : Sig
  | sigkill : Sig
deriving Repr, DecidableEq

/-- What a signal was aimed at: the whole process group (`os.killpg`) or
only the top-level pid (`Popen.terminate` / `Popen.kill`). -/
inductive SigTarget where
  | group : SigTarget
  | pid : SigTarget
deriving Repr, DecidableEq

/-- One signalling attempt of a termination sequence.  `delivered` is
false when the underlying call raised (e.g. `ProcessLookupError` because
the process was already gone). -/
structure SigEvent where
  sig : Sig
  target : SigTarget
  delivered : Bool
deriving Repr, DecidableEq

/-- Environment behaviour of one `AsyncRunner._kill_process` call
(runner.py lines 136-155): whether the process had already been reaped on
entry, whether each OS call raises, and whether the process is observed
exited after each grace sleep. -/
structure KillBehavior where
  alreadyExited : Bool
  killpgTermRaises : Bool
  exitedAfterGrace : Bool
  killpgKillRaises : Bool
  terminateRaises : Bool
  exitedAfterFallbackGrace : Bool
deriving Repr, DecidableEq

/-- The pid-targeted fallback of `_kill_process` (runner.py lines 148-153),
entered when a group signal raised: `process.terminate()`, an
`asyncio.sleep(0.2)` grace window, then `process.kill()` only if the
process is still unreaped; any exception ends the sequence
(`except Exception: pass`). -/
def fallbackTrace (b : KillBehavior) : List SigEvent :=
  if b.terminateRaises then [⟨.sigterm, .pid, false⟩]
  else
    ⟨.sigterm, .pid, true⟩ ::
      (if b.exitedAfterFallbackGrace then [] else [⟨.sigkill, .pid, true⟩])

/-- Signal trace of `AsyncRunner._kill_process` (runner.py lines 136-155):
return immediately if the process already has a return code; otherwise
send SIGTERM to the process group, sleep 0.5 s, and send SIGKILL to the
group only if the process still has no return code.  If a group signal
raises (`ProcessLookupError`, `PermissionError`, `OSError`), fall back to
pid-targeted terminate/kill. -/
def kill_process_trace (b : KillBehavior) : List SigEvent :=
  if b.alreadyExited then []
  else if b.killpgTermRaises then ⟨.sigterm, .group, false⟩ :: fallbackTrace b
  else
    ⟨.sigterm, .group, true⟩ ::
      (if b.exitedAfterGrace then []
       else if b.killpgKillRaises then ⟨.sigkill, .group, false⟩ :: fallbackTrace b
       else [⟨.sigkill, .group, true⟩])

/-- Environment behaviour of one
`ProfessionalTimeoutManager._terminate_process_group` call
(k1ngb0b_recon_II.py lines 164-187), modelled on the POSIX branch
(`os.name != 'nt'`): whether the group SIGTERM raises, whether
`process.wait(timeout=10)` returns within the grace window, and whether
the group SIGKILL raises. -/
structure TPGBehavior where
  killpgTermRaises : Bool
  gracefulWithin10s : Bool
  killpgKillRaises : Bool
deriving Repr, DecidableEq

/-- Signal trace of `_terminate_process_group` (POSIX branch): SIGTERM to
the process group first; wait up to 10 s for a graceful exit; only on
`subprocess.TimeoutExpired` send SIGKILL to the group and reap.  Any
exception is swallowed by the outer `except Exception`. -/
def terminate_process_group_trace (b : TPGBehavior) : List SigEvent :=
  if b.killpgTermRaises then [⟨.sigterm, .group, false⟩]
  else
    ⟨.sigterm, .group, true⟩ ::
      (if b.gracefulWithin10s then []
       else [⟨.sigkill, .group, !b.killpgKillRaises⟩])

/-- No SIGKILL attempt appears in the trace before a SIGTERM attempt has
been made: the accumulator records whether a SIGTERM was already seen. -/
def killPrecededByTerm : Bool → List SigEvent → Bool
  | _, [] => true
  | seenTerm, e :: rest =>
      (if e.sig == Sig.sigkill then seenTerm else true) &&
        killPrecededByTerm (seenTerm || e.sig == Sig.sigterm) rest

/-- The first signalling attempt of the trace, if any, is a SIGTERM aimed
at the whole process group. -/
def firstIsGroupTerm : List SigEvent → Bool
  | [] => true
  | e :: _ => e.sig == Sig.sigterm && e.target == SigTarget.group

/-- The trace contains a SIGKILL attempt aimed at the given target. -/
def hasKill (tgt : SigTarget) (tr : List SigEvent) : Bool :=
  tr.any (fun e => e.sig == Sig.sigkill && e.target == tgt)

/-- Per-invocation lifecycle abstraction used for the concurrency bound:
what happens to a spawned invocation between spawn and semaphore release,
following the three completed paths of `AsyncRunner.run`:
  * `completes` — `communicate` returns, the child has exited;
  * `timesOut` — the supervisor kills the child before the slot is freed;
  * `raisesLeavingChild` — an internal exception (e.g. the
    `input_data.encode()` failure) aborts the invocation through
    `except Exception`; no kill is issued on that path, so the child may
    stay alive while the `async with semaphore` block releases the slot. -/
inductive TaskOutcome where
  | completes : TaskOutcome
  | timesOut : TaskOutcome
  | raisesLeavingChild : TaskOutcome
deriving Repr, DecidableEq

/-- Scheduling phase of one submitted invocation: waiting to acquire the
semaphore, holding a slot but not yet spawned, running a spawned child,
or returned. -/
inductive Phase where
  | waiting : Phase
  | holding : Phase
  | running : Phase
  | done : Phase
deriving Repr, DecidableEq

/-- Global state of the async engine under concurrent submissions:
the semaphore's available permits, each submitted task's outcome and
phase (indexed by position), and the indices of tasks whose child
process is currently alive. -/
structure EngineState where
  semAvail : Nat
  tasks : List (TaskOutcome × Phase)
  alive : List Nat
deriving Repr, DecidableEq

/-- A scheduler action on the engine state, naming the task it advances. -/
inductive EngAction where
  | acquire (i : Nat) : EngAction
  | spawn (i : Nat) : EngAction
  | finish (i : Nat) : EngAction
deriving Repr, DecidableEq

/-- Small-step transition of the engine, following `AsyncRunner.run`
(runner.py lines 81-125): `acquire` models entering
`async with semaphore` (blocked while no permit is available), `spawn`
models `create_subprocess_exec` plus the registry append, and `finish`
models reaching the end of the `async with` block, which releases the
permit on every path.  On `finish`, a `completes` child has exited and a
`timesOut` child has been killed by `_kill_process`, so both leave the
alive set; on the `raisesLeavingChild` path no kill is issued and the
child stays alive. -/
def engStep (s : EngineState) : EngAction → Option EngineState
  | .acquire i =>
      match s.tasks.get? i with
      | some (o, .waiting) =>
          if 0 < s.semAvail then
            some { s with semAvail := s.semAvail - 1,
                          tasks := s.tasks.set i (o, .holding) }
          else none
      | _ => none
  | .spawn i =>
      match s.tasks.get? i with
      | some (o, .holding) =>
          some { s with tasks := s.tasks.set i (o, .running),
                        alive := s.alive ++ [i] }
      | _ => none
  | .finish i =>
      match s.tasks.get? i with
      | some (o, .running) =>
          some { semAvail := s.semAvail + 1,
                 tasks := s.tasks.set i (o, .done),
                 alive := match o with
                          | .raisesLeavingChild => s.alive
                          | _ => s.alive.filter (fun j => !(j == i)) }
      | _ => none

/-- Run a sequence of scheduler actions from a state; `none` when some
action is not enabled. -/
def engRun (s : EngineState) : List EngAction → Option EngineState
  | [] => some s
  | a :: rest =>
      match engStep s a with
      | none => none
      | some s1 => engRun s1 rest

/-- Initial engine state: a semaphore of capacity `n`
(`asyncio.Semaphore(self.max_concurrent)`, runner.py lines 55-59), all
submitted tasks waiting, no child alive. -/
def engInit (n : Nat) (outcomes : List TaskOutcome) : EngineState :=
  { semAvail := n,
    tasks := outcomes.map (fun o => (o, Phase.waiting)),
    alive := [] }

/-- C1: for every `RunResult`, the derived `success` predicate holds iff
the return code equals 0 and `timed_out` is false; in particular any
result with return code 127 or 124, or with `timed_out` true, has
`success = false`. -/
theorem success_iff_c1 (r : RunResult) :
    (r.success = true ↔ (r.returncode = 0 ∧ r.timed_out = false)) ∧
    (r.returncode = 127 → r.success = false) ∧
    (r.returncode = 124 → r.success = false) ∧
    (r.timed_out = true → r.success = false) := by
  obtain ⟨c, rc, so, se, t, d⟩ := r
  refine ⟨?_, ?_, ?_, ?_⟩ <;>
    cases t <;> simp [RunResult.success] <;> omega

/-- Witness for C1 at a concrete result: return code 127 forces
`success = false`. -/
theorem success_iff_c1_witness :
    (RunResult.mk ["false"] 127 "" "" false 0).success = false :=
  (success_iff_c1 (RunResult.mk ["false"] 127 "" "" false 0)).2.1 rfl

/-- C5: the engine's public entry points — `AsyncRunner.run`, `run_sync`
and `ProfessionalTimeoutManager.run_with_timeout` — return an `.ok`
result value for every environment behaviour (tool missing, non-zero
exit, timeout, or an internal spawn/communication exception); no modelled
exception crosses the public boundary. -/
theorem engine_no_raise_c5
    (procs : List Nat) (pid : Nat) (cmd : List String) (b : ProcBehavior)
    (elapsed : Int) (cmd2 : List String) (b2 : SubprocessRunOutcome)
    (elapsed2 : Int) (st : PTMState) (command : List String) (timeout : Int)
    (description : String) (b3 : PopenBehavior) :
    exceptIsOk (AsyncRunner.run procs pid cmd b elapsed).2 = true ∧
    exceptIsOk (run_sync cmd2 b2 elapsed2) = true ∧
    exceptIsOk (run_with_timeout st command timeout description b3).2 = true := by
  refine ⟨?_, ?_, ?_⟩
  · obtain ⟨sp, co, ec, rk⟩ := b
    cases sp <;> cases co <;> rfl
  · cases b2 <;> rfl
  · cases b3 <;> rfl

/-- C4: a tool name absent from the search path makes `check_tool` return
a not-found `ToolInfo` (no exception), makes `run_tool` return the
127 result without spawning, and a spawn-time `FileNotFoundError` inside
`run` likewise becomes a 127 result; all three have `success = false`. -/
theorem missing_tool_c4
    (which : String → Option String) (probeVersion : String → Option String)
    (name : String) (args : List String) (procs : List Nat) (pid : Nat)
    (b : ProcBehavior) (elapsed : Int) (cmd : List String) :
    (which name = none →
      (check_tool which probeVersion name).available = false ∧
      AsyncRunner.run_tool which name args procs pid b elapsed =
        (procs, Except.ok ⟨name :: args, 127, "",
          "Tool '" ++ name ++ "' not found in PATH", false, 0⟩) ∧
      (RunResult.mk (name :: args) 127 ""
        ("Tool '" ++ name ++ "' not found in PATH") false 0).success = false) ∧
    (b.spawn = SpawnOutcome.fileNotFound →
      AsyncRunner.run procs pid cmd b elapsed =
        (procs, Except.ok ⟨cmd, 127, "",
          "Command not found: " ++ cmd.headD "", false, elapsed⟩) ∧
      (RunResult.mk cmd 127 "" ("Command not found: " ++ cmd.headD "")
        false elapsed).success = false) := by
  constructor
  · intro h
    refine ⟨?_, ?_, rfl⟩
    · simp [check_tool, h]
    · simp [AsyncRunner.run_tool, h]
  · intro h
    obtain ⟨sp, co, ec, rk⟩ := b
    simp only at h
    subst h
    exact ⟨rfl, rfl⟩

/-- Witness for C4: the missing tool `definitely-not-a-real-tool` under
an empty search path, and a run whose spawn raises `FileNotFoundError`. -/
theorem missing_tool_c4_witness :
    (check_tool (fun _ => none) (fun _ => none)
      "definitely-not-a-real-tool").available = false ∧
    AsyncRunner.run [] 0 ["definitely-not-a-real-tool"]
        ⟨SpawnOutcome.fileNotFound, CommOutcome.completes "" "", none, none⟩ 0 =
      ([], Except.ok ⟨["definitely-not-a-real-tool"], 127, "",
        "Command not found: " ++ (["definitely-not-a-real-tool"] : List String).headD "",
        false, 0⟩) := by
  refine ⟨((missing_tool_c4 (fun _ => none) (fun _ => none)
      "definitely-not-a-real-tool" [] [] 0
      ⟨SpawnOutcome.fileNotFound, CommOutcome.completes "" "", none, none⟩ 0
      ["definitely-not-a-real-tool"]).1 rfl).1, ?_⟩
  exact ((missing_tool_c4 (fun _ => none) (fun _ => none)
      "definitely-not-a-real-tool" [] [] 0
      ⟨SpawnOutcome.fileNotFound, CommOutcome.completes "" "", none, none⟩ 0
      ["definitely-not-a-real-tool"]).2 rfl).1

/-- C10: `get_runner` constructs the default runner only when the module
cell is empty; the first call fixes its configuration, and any later call
returns the stored runner unchanged with its own arguments ignored. -/
theorem get_runner_singleton_c10 (t : Int) (mc : Nat) (t2 : Int) (mc2 : Nat)
    (r : AsyncRunner) :
    get_runner none t mc = (⟨t, mc⟩, some ⟨t, mc⟩) ∧
    get_runner (some r) t2 mc2 = (r, some r) ∧
    (get_runner (get_runner none t mc).2 t2 mc2).1 = AsyncRunner.mk t mc := by
  exact ⟨rfl, rfl, rfl⟩

/-- C3 counterexample: an `AsyncRunner.run` invocation whose child does
not exit before the deadline (and is reaped with `returncode = -15` after
the SIGTERM of `_kill_process`) returns `timed_out = true` but return
code -15, not the 124 sentinel the claim asserts for every engine
variant. -/
theorem timeout_sentinel_c3_counterexample :
    (AsyncRunner.run [] 0 ["sleep", "100"]
        ⟨SpawnOutcome.ok, CommOutcome.timesOut "" "", none, some (-15)⟩ 1).2 =
      Except.ok ⟨["sleep", "100"], -15, "", "Timeout exceeded", true, 1⟩ ∧
    ¬ ((-15 : Int) = 124) := by
  exact ⟨rfl, by decide⟩

/-- C3 amended: a deadline-exceeding invocation always yields
`timed_out = true` in both variants, but only `run_sync` returns the
124 sentinel; `AsyncRunner.run` returns the killed child's reported
return code, or 1 when it is undetermined. -/
theorem timeout_c3_amended
    (procs : List Nat) (pid : Nat) (cmd : List String) (b : ProcBehavior)
    (elapsed : Int) (lo le : String) (cmd2 : List String) (elapsed2 : Int) :
    (b.spawn = SpawnOutcome.ok → b.comm = CommOutcome.timesOut lo le →
      (AsyncRunner.run procs pid cmd b elapsed).2 =
        Except.ok ⟨cmd, returncodeOrOne b.returncodeAfterKill, "",
          "Timeout exceeded", true, elapsed⟩) ∧
    run_sync cmd2 SubprocessRunOutcome.timesOut elapsed2 =
      Except.ok ⟨cmd2, 124, "", "Timeout exceeded", true, elapsed2⟩ := by
  constructor
  · intro h1 h2
    obtain ⟨sp, co, ec, rk⟩ := b
    simp only at h1 h2
    subst h1; subst h2
    rfl
  · rfl

/-- Witness for C3 (amended) at a concrete timing-out invocation whose
return code was never observed after the kill. -/
theorem timeout_c3_amended_witness :
    (AsyncRunner.run [] 0 ["sleep", "5"]
        ⟨SpawnOutcome.ok, CommOutcome.timesOut "" "", none, none⟩ 1).2 =
      Except.ok ⟨["sleep", "5"], returncodeOrOne none, "",
        "Timeout exceeded", true, 1⟩ :=
  (timeout_c3_amended [] 0 ["sleep", "5"]
    ⟨SpawnOutcome.ok, CommOutcome.timesOut "" "", none, none⟩ 1 "" "" [] 0).1
    rfl rfl

/-- C9: every `AsyncRunner.run` invocation that times out reports exactly
the empty string as stdout and the literal `Timeout exceeded` as stderr,
whatever partial output the child had produced before termination. -/
theorem timeout_discards_output_c9
    (procs : List Nat) (pid : Nat) (cmd : List String) (b : ProcBehavior)
    (elapsed : Int) (lostStdout lostStderr : String) :
    b.spawn = SpawnOutcome.ok →
    b.comm = CommOutcome.timesOut lostStdout lostStderr →
    ((AsyncRunner.run procs pid cmd b elapsed).2.map RunResult.stdout,
     (AsyncRunner.run procs pid cmd b elapsed).2.map RunResult.stderr) =
      (Except.ok "", Except.ok "Timeout exceeded") := by
  intro h1 h2
  obtain ⟨sp, co, ec, rk⟩ := b
  simp only at h1 h2
  subst h1; subst h2
  rfl

/-- Witness for C9: a timed-out run whose child had produced partial
output on both pipes; the result still carries none of it. -/
theorem timeout_discards_output_c9_witness :
    ((AsyncRunner.run [] 0 ["curl", "http://x"]
        ⟨SpawnOutcome.ok, CommOutcome.timesOut "some bytes" "some errors",
         none, some (-9)⟩ 2).2.map RunResult.stdout,
     (AsyncRunner.run [] 0 ["curl", "http://x"]
        ⟨SpawnOutcome.ok, CommOutcome.timesOut "some bytes" "some errors",
         none, some (-9)⟩ 2).2.map RunResult.stderr) =
      (Except.ok "", Except.ok "Timeout exceeded") :=
  timeout_discards_output_c9 [] 0 ["curl", "http://x"]
    ⟨SpawnOutcome.ok, CommOutcome.timesOut "some bytes" "some errors",
     none, some (-9)⟩ 2 "some bytes" "some errors" rfl rfl

/-- The manual-command list after one `run_with_timeout` call: the prior
records followed by the single record of this job, if it produced one. -/
theorem run_with_timeout_manual (st : PTMState) (j : Job) :
    (run_with_timeout st j.command j.timeout j.description j.behavior).1.manual_commands =
      st.manual_commands ++ (manualRecordOf j).toList := by
  obtain ⟨c, t, d, b⟩ := j
  cases b <;> simp [run_with_timeout, manualRecordOf, PTMState.finallyDel]

/-- The manual-command list after a batch: the prior records followed by
exactly one record per timed-out or raising job, in submission order. -/
theorem runBatch_manual (st : PTMState) (jobs : List Job) :
    (runBatch st jobs).1.manual_commands =
      st.manual_commands ++ jobs.filterMap manualRecordOf := by
  induction jobs generalizing st with
  | nil => simp [runBatch]
  | cons j rest ih =>
      simp only [runBatch]
      cases hj : manualRecordOf j with
      | none =>
          simp [ih, run_with_timeout_manual, hj, List.filterMap_cons, Option.toList]
      | some rec =>
          simp [ih, run_with_timeout_manual, hj, List.filterMap_cons, Option.toList]

/-- C2 counterexample: submitting the single command `false`, which runs
to completion with exit code 1, returns a non-success result yet appends
no manual-log record, where the claim demands exactly one. -/
theorem manual_log_c2_counterexample :
    (runBatch PTMState.init
        [⟨["false"], 5, "run false", PopenBehavior.completes 1 "" ""⟩]).1.manual_commands
      = [] ∧
    (runBatch PTMState.init
        [⟨["false"], 5, "run false", PopenBehavior.completes 1 "" ""⟩]).2 =
      [Except.ok (false, "", "")] := by
  exact ⟨rfl, rfl⟩

/-- C2 amended: the manual-fallback log accumulated over a batch consists
of exactly the invocations that timed out or raised an internal exception
(spawn failures included), each recorded once, in submission order;
invocations that completed with a non-zero exit code are returned as
non-success but contribute no record, and `save_manual_commands` flushes
exactly the accumulated list (nothing when it is empty). -/
theorem manual_log_c2_amended (st : PTMState) (jobs : List Job) :
    (runBatch st jobs).1.manual_commands =
      st.manual_commands ++ jobs.filterMap manualRecordOf ∧
    (save_manual_commands (runBatch PTMState.init jobs).1).map Prod.fst =
      (if (jobs.filterMap manualRecordOf).isEmpty then none
       else some (jobs.filterMap manualRecordOf)) := by
  constructor
  · exact runBatch_manual st jobs
  · have h2 : (runBatch PTMState.init jobs).1.manual_commands =
        jobs.filterMap manualRecordOf := by
      rw [runBatch_manual]; rfl
    unfold save_manual_commands
    rw [h2]
    cases hc : jobs.filterMap manualRecordOf with
    | nil => rfl
    | cons a l => rfl

/-- C6: in both termination routines, the first signalling attempt is
always a SIGTERM aimed at the whole process group, every SIGKILL attempt
is preceded by a SIGTERM attempt, and a SIGKILL is attempted only when
the process was still unreaped after the corresponding grace window. -/
theorem graceful_before_forceful_c6 (b : KillBehavior) (b2 : TPGBehavior) :
    (firstIsGroupTerm (kill_process_trace b) = true ∧
     killPrecededByTerm false (kill_process_trace b) = true ∧
     (hasKill SigTarget.group (kill_process_trace b) = true →
       b.exitedAfterGrace = false) ∧
     (hasKill SigTarget.pid (kill_process_trace b) = true →
       b.exitedAfterFallbackGrace = false)) ∧
    (firstIsGroupTerm (terminate_process_group_trace b2) = true ∧
     killPrecededByTerm false (terminate_process_group_trace b2) = true ∧
     (hasKill SigTarget.group (terminate_process_group_trace b2) = true →
       b2.gracefulWithin10s = false)) := by
  obtain ⟨a1, a2, a3, a4, a5, a6⟩ := b
  obtain ⟨c1, c2, c3⟩ := b2
  revert a1 a2 a3 a4 a5 a6 c1 c2 c3
  decide

/-- Witness for C6: a behaviour in which the group SIGKILL is actually
attempted; the theorem yields that the process was then still unreaped
after the 0.5 s grace window. -/
theorem graceful_before_forceful_c6_witness :
    hasKill SigTarget.group
      (kill_process_trace ⟨false, false, false, false, false, false⟩) = true ∧
    KillBehavior.exitedAfterGrace
      ⟨false, false, false, false, false, false⟩ = false := by
  refine ⟨by decide, ?_⟩
  exact (graceful_before_forceful_c6 ⟨false, false, false, false, false, false⟩
    ⟨false, false, false⟩).1.2.2.1 (by decide)

/-- No entry with the deleted key survives the `finally` filter. -/
theorem any_key_after_filter (l : List (String × List String)) (d : String) :
    (l.filter (fun p => !(p.1 == d))).any (fun p => p.1 == d) = false := by
  induction l with
  | nil => rfl
  | cons p rest ih =>
      by_cases h : p.1 == d <;> simp [List.filter_cons, h, ih]

/-- C7 (code bug): an internal exception raised between spawn and result
collection (e.g. `input_data.encode()` failing inside the `communicate`
call) makes `AsyncRunner.run` return a normal `RunResult` while leaving
the process handle in the `_processes` registry, so the registry is not
empty after every invocation has returned; the manager variant, by
contrast, always clears its `active_processes` entry in `finally`. -/
theorem registry_leak_c7 :
    AsyncRunner.run [] 7 ["cat"]
        ⟨SpawnOutcome.ok,
         CommOutcome.raises "UnicodeEncodeError: surrogates not allowed",
         none, none⟩ 1 =
      ([7], Except.ok ⟨["cat"], 1, "",
        "UnicodeEncodeError: surrogates not allowed", false, 1⟩) ∧
    ∀ (st : PTMState) (c : List String) (t : Int) (d : String)
      (b : PopenBehavior),
      ((run_with_timeout st c t d b).1.active_processes.any
        (fun p => p.1 == d)) = false := by
  constructor
  · rfl
  · intro st c t d b
    cases b <;>
      simp [run_with_timeout, PTMState.finallyDel, any_key_after_filter]

/-- C8 (code bug): with a semaphore of capacity 1, a first invocation
that takes the internal-exception path releases its slot while its child
is still alive (no kill is issued on that path), after which a second
invocation acquires the slot and spawns: two children alive at once
despite the capacity bound of 1. -/
theorem concurrency_bound_c8 :
    (engRun (engInit 1 [TaskOutcome.raisesLeavingChild, TaskOutcome.completes])
        [EngAction.acquire 0, EngAction.spawn 0, EngAction.finish 0,
         EngAction.acquire 1, EngAction.spawn 1]).map EngineState.alive =
      some [0, 1] ∧
    1 < (2 : Nat) := by
  exact ⟨rfl, by decide⟩
